import Mathlib

/-!
# QtNodes: NodeDataModel and NodePainter

A shallow embedding of `include/nodes/internal/NodeDataModel.hpp` and
`src/NodePainter.cpp`.

* Scalars (`double`, `float`) are an arbitrary type `α` carrying the order and
  the arithmetic each function uses; rounding and NaN are outside the model.
* Virtual methods of `NodeDataModel` are fields of a structure whose default
  values are the bodies the base class gives them.
* `QPainter` is explicit state: the current pen and brush and the list of
  primitives drawn so far, each recorded with the pen and brush in force.
* Headers that are not among the sources (`NodeGeometry`, `NodeState`,
  `NodeStyle`, `PortType`, `DataModelRegistry`, `QFontMetrics`) appear as
  plain records of what the painter reads from them, and the functions they
  compute as fields of `Collaborators`.
-/

namespace QtNodes

/-! ## NodeDataModel.hpp -/

/-- Validation state of a node: enum class NodeValidationState. -/
inductive NodeValidationState where
  | Valid
  | Warning
  | Error
  deriving DecidableEq, Repr

/-- Node type tag NT_UNKNOWN of the anonymous enum. -/
def NT_UNKNOWN : Int := -1
/-- Node type tag NT_EXT_INLET of the anonymous enum. -/
def NT_EXT_INLET : Int := 0
/-- Node type tag NT_WSR of the anonymous enum. -/
def NT_WSR : Int := 1
/-- Node type tag NT_PFR of the anonymous enum. -/
def NT_PFR : Int := 2

/-- Port direction. The painter names `In` and `Out`; `None` is the value the
`default:` label of the switch in drawEntryLabels is there for. -/
inductive PortType where
  | None
  | In
  | Out
  deriving DecidableEq, Repr

/-- Port index, an `int` in the sources. -/
abbrev PortIndex := Int

/-- Data type of a port: the painter reads `id` and `name`. -/
structure NodeDataType where
  id : String
  name : String
  deriving DecidableEq, Repr

/-- Connection policy: enum class NodeDataModel::ConnectionPolicy. -/
inductive ConnectionPolicy where
  | One
  | Many
  deriving DecidableEq, Repr

/-- A colour value (QColor). -/
structure QColor where
  rgb : Nat
  deriving DecidableEq, Repr

/-- The colour Qt::gray. -/
def Qt.gray : QColor := ⟨0xa0a0a4⟩

/-- The fields of NodeStyle the painter reads. -/
structure NodeStyle (α : Type) where
  NormalBoundaryColor : QColor
  SelectedBoundaryColor : QColor
  PenWidth : α
  HoveredPenWidth : α
  ConnectionPointColor : QColor
  FilledConnectionPointColor : QColor
  WarningColor : QColor
  ErrorColor : QColor
  FontColor : QColor
  FontColorFaded : QColor
  ConnectionPointDiameter : α

namespace NodeDataModelBase

/-- Base-class body of the virtual nodeType(). -/
def nodeType : Int := NT_UNKNOWN

/-- Base-class body of the virtual portOutConnectionPolicy(PortIndex). -/
def portOutConnectionPolicy (_ : PortIndex) : ConnectionPolicy :=
  ConnectionPolicy.Many

/-- Base-class body of the virtual portInConnectionPolicy(PortIndex). -/
def portInConnectionPolicy (_ : PortIndex) : ConnectionPolicy :=
  ConnectionPolicy.One

/-- Base-class body of the virtual resizable(). -/
def resizable : Bool := false

/-- Base-class body of the virtual validationState(). -/
def validationState : NodeValidationState := NodeValidationState.Valid

/-- Base-class body of the virtual validationMessage(). -/
def validationMessage : String := ""

end NodeDataModelBase

/-- Stored part of NodeGeometry that the painter reads and writes. -/
structure NodeGeometry (α : Type) where
  width : α
  height : α
  hovered : Bool
  draggingPos : α × α

namespace NodeGeometry

variable {α : Type}

/-- The setter setWidth. -/
def setWidth (geom : NodeGeometry α) (w : α) : NodeGeometry α :=
  { geom with width := w }

/-- The setter setHeight. -/
def setHeight (geom : NodeGeometry α) (h : α) : NodeGeometry α :=
  { geom with height := h }

end NodeGeometry

/-- QPen: colour and width. -/
structure QPen (α : Type) where
  color : QColor
  width : α

/-- A rectangle given by its top-left corner and its size (QRectF). -/
structure QRectF (α : Type) where
  x : α
  y : α
  width : α
  height : α

/-- The primitives the modelled functions draw. -/
inductive Shape (α : Type) where
  | ellipse (center : α × α) (rx ry : α)
  | ellipseIn (rect : QRectF α)
  | roundedRect (rect : QRectF α) (xRadius yRadius : α)
  | text (position : α × α) (s : String)

/-- A primitive together with the pen and brush it was drawn with. -/
structure Drawn (α : Type) where
  shape : Shape α
  pen : QPen α
  brush : QColor

/-- QPainter as explicit state. -/
structure QPainter (α : Type) where
  pen : QPen α
  brush : QColor
  drawn : List (Drawn α)

namespace QPainter

variable {α : Type}

/-- The call setPen(QPen). -/
def setPen (painter : QPainter α) (p : QPen α) : QPainter α :=
  { painter with pen := p }

/-- The call setPen(QColor): a solid pen of width 1 in that colour. -/
def setPenColor [One α] (painter : QPainter α) (c : QColor) : QPainter α :=
  { painter with pen := ⟨c, 1⟩ }

/-- The call setBrush(colour). -/
def setBrush (painter : QPainter α) (c : QColor) : QPainter α :=
  { painter with brush := c }

/-- Record one primitive with the pen and brush in force. -/
def draw (painter : QPainter α) (s : Shape α) : QPainter α :=
  { painter with drawn := painter.drawn ++ [⟨s, painter.pen, painter.brush⟩] }

/-- The call drawEllipse(center, rx, ry). -/
def drawEllipse (painter : QPainter α) (center : α × α) (rx ry : α) : QPainter α :=
  painter.draw (Shape.ellipse center rx ry)

/-- The call drawEllipse(rect). -/
def drawEllipseIn (painter : QPainter α) (rect : QRectF α) : QPainter α :=
  painter.draw (Shape.ellipseIn rect)

/-- The call drawRoundedRect(rect, xRadius, yRadius). -/
def drawRoundedRect (painter : QPainter α) (rect : QRectF α) (xRadius yRadius : α) :
    QPainter α :=
  painter.draw (Shape.roundedRect rect xRadius yRadius)

/-- The call drawText(position, text). -/
def drawText (painter : QPainter α) (position : α × α) (s : String) : QPainter α :=
  painter.draw (Shape.text position s)

end QPainter

/-- A custom painter (NodePainterDelegate::paint). -/
structure NodePainterDelegate (α : Type) where
  paint : QPainter α → NodeGeometry α → QPainter α

/-- A node data model with virtual dispatch resolved: the pure virtual
`nPorts` and `dataType` have no default, the other fields default to the
base-class bodies. -/
structure NodeDataModel (α : Type) where
  nPorts : PortType → Nat
  dataType : PortType → PortIndex → NodeDataType
  nodeStyle : NodeStyle α
  nodeType : Int := NodeDataModelBase.nodeType
  portOutConnectionPolicy : PortIndex → ConnectionPolicy :=
    NodeDataModelBase.portOutConnectionPolicy
  portInConnectionPolicy : PortIndex → ConnectionPolicy :=
    NodeDataModelBase.portInConnectionPolicy
  resizable : Bool := NodeDataModelBase.resizable
  validationState : NodeValidationState := NodeDataModelBase.validationState
  validationMessage : String := NodeDataModelBase.validationMessage
  painterDelegate : Option (NodePainterDelegate α) := none

/-! ## What NodePainter reads from headers that are not among the sources -/

/-- Identifier of a connection (a QUuid). -/
abbrev ConnectionId := Nat

/-- Occupancy set of one port: the connections attached to it. -/
abbrev ConnectionPtrSet := List ConnectionId

/-- The part of NodeState the painter reads. -/
structure NodeState where
  inConnections : List ConnectionPtrSet
  outConnections : List ConnectionPtrSet
  isReacting : Bool
  reactingPortType : PortType
  reactingDataType : NodeDataType

/-- The accessor getEntries(portType): the occupancy sets of one side. -/
def NodeState.getEntries (state : NodeState) (portType : PortType) :
    List ConnectionPtrSet :=
  if portType = PortType.In then state.inConnections else state.outConnections

/-- The registry of type converters: `none` stands for a null converter. -/
structure DataModelRegistry (κ : Type) where
  getTypeConverter : NodeDataType → NodeDataType → Option κ

/-- The part of FlowScene the painter reads. -/
structure FlowScene (κ : Type) where
  registry : DataModelRegistry κ

/-- The part of ConnectionStyle the painter reads. -/
structure ConnectionStyle where
  useDataDefinedColors : Bool
  normalColor : String → QColor

/-- The part of NodeGraphicsObject the painter reads. -/
structure NodeGraphicsObject where
  isSelected : Bool

/-- A node: geometry, state, model and graphics object. -/
structure Node (α : Type) where
  nodeGeometry : NodeGeometry α
  nodeState : NodeState
  nodeDataModel : NodeDataModel α
  nodeGraphicsObject : NodeGraphicsObject

/-- Functions the painter calls whose bodies are not among the sources:
std::sqrt, the global connection style, the computed accessors of
NodeGeometry, the metrics of the painter font, and the three drawing steps of
paint that draw no connection point and no validation box. -/
structure Collaborators (α : Type) where
  sqrt : α → α
  connectionStyle : ConnectionStyle
  portScenePosition : NodeGeometry α → PortIndex → PortType → α × α
  validationHeight : NodeGeometry α → α
  resizeRect : NodeGeometry α → QRectF α
  recalculateSize : NodeGeometry α → NodeGeometry α
  boundingRect : String → QRectF α
  drawNodeRect :
    QPainter α → NodeGeometry α → NodeDataModel α → NodeGraphicsObject → QPainter α
  drawModelName :
    QPainter α → NodeGeometry α → NodeState → NodeDataModel α → QPainter α
  drawEntryLabels :
    QPainter α → NodeGeometry α → NodeState → NodeDataModel α → QPainter α

/-! ## NodePainter.cpp -/

namespace NodePainter

variable {α κ : Type}

/-- The function std::max on two values. -/
def stdMax [LinearOrder α] (a b : α) : α :=
  if a < b then b else a

/-- The square-forcing block at the start of paint (lines 35 to 39). -/
def forceSquare [LinearOrder α] (geom : NodeGeometry α) : NodeGeometry α :=
  if geom.width ≠ geom.height then
    let size := stdMax geom.width geom.height
    (geom.setWidth size).setHeight size
  else
    geom

/-- The local `canConnect` of drawConnectionPoints for port `i` of `portType`. -/
def canConnect (state : NodeState) (model : NodeDataModel α) (portType : PortType)
    (i : Nat) : Bool :=
  ((state.getEntries portType).getD i []).isEmpty ||
    (portType == PortType.Out &&
      model.portOutConnectionPolicy (i : Int) == ConnectionPolicy.Many)

/-- The local `typeConvertable` of drawConnectionPoints. -/
def typeConvertable (scene : FlowScene κ) (state : NodeState) (portType : PortType)
    (dataType : NodeDataType) : Bool :=
  if portType = PortType.In then
    (scene.registry.getTypeConverter state.reactingDataType dataType).isSome
  else
    (scene.registry.getTypeConverter dataType state.reactingDataType).isSome

/-- The condition of the inner `if` of drawConnectionPoints (line 182): the
branch that enlarges the point is taken exactly when this is true. -/
def typeCompatible (scene : FlowScene κ) (state : NodeState) (portType : PortType)
    (dataType : NodeDataType) : Bool :=
  state.reactingDataType.id == dataType.id ||
    typeConvertable scene state portType dataType

/-- The static QPointF::dotProduct. -/
def dotProduct [Mul α] [Add α] (p q : α × α) : α :=
  p.1 * q.1 + p.2 * q.2

/-- The local `dist` of drawConnectionPoints: distance of the drag position
from the port. -/
def dragDistance [Ring α] (env : Collaborators α) (geom : NodeGeometry α)
    (portType : PortType) (i : Nat) : α :=
  let p := env.portScenePosition geom (i : Int) portType
  let diff := (geom.draggingPos.1 - p.1, geom.draggingPos.2 - p.2)
  env.sqrt (dotProduct diff diff)

/-- The scale factor `r` of drawConnectionPoints for port `i` of `portType`. -/
def connectionPointScale [LinearOrderedField α] (env : Collaborators α)
    (geom : NodeGeometry α) (state : NodeState) (model : NodeDataModel α)
    (scene : FlowScene κ) (portType : PortType) (i : Nat) : α :=
  let dataType := model.dataType portType (i : Int)
  if state.isReacting && canConnect state model portType i &&
      portType == state.reactingPortType then
    let dist := dragDistance env geom portType i
    if typeCompatible scene state portType dataType then
      let thres : α := 40.0
      if dist < thres then 2.0 - dist / thres else 1.0
    else
      let thres : α := 80.0
      if dist < thres then dist / thres else 1.0
  else
    1.0

/-- Body of the inner loop of drawConnectionPoints: one ellipse for port `i`. -/
def drawConnectionPoint [LinearOrderedField α] (env : Collaborators α)
    (geom : NodeGeometry α) (state : NodeState) (model : NodeDataModel α)
    (scene : FlowScene κ) (portType : PortType) (painter : QPainter α) (i : Nat) :
    QPainter α :=
  let diameter := model.nodeStyle.ConnectionPointDiameter
  let reducedDiameter := diameter * 0.5
  let p := env.portScenePosition geom (i : Int) portType
  let dataType := model.dataType portType (i : Int)
  let r := connectionPointScale env geom state model scene portType i
  let painter :=
    if env.connectionStyle.useDataDefinedColors then
      painter.setBrush (env.connectionStyle.normalColor dataType.id)
    else
      painter.setBrush model.nodeStyle.ConnectionPointColor
  painter.drawEllipse p (reducedDiameter * r) (reducedDiameter * r)

/-- The outer loop of drawConnectionPoints over the remaining port types, with
its `break` after the first port type of a node of type 0. -/
def drawConnectionPointsLoop [LinearOrderedField α] (env : Collaborators α)
    (geom : NodeGeometry α) (state : NodeState) (model : NodeDataModel α)
    (scene : FlowScene κ) : List PortType → QPainter α → QPainter α
  | [], painter => painter
  | portType :: rest, painter =>
    let n := (state.getEntries portType).length
    let painter :=
      (List.range n).foldl (drawConnectionPoint env geom state model scene portType) painter
    if model.nodeType = 0 then
      painter
    else
      drawConnectionPointsLoop env geom state model scene rest painter

/-- The function NodePainter::drawConnectionPoints. -/
def drawConnectionPoints [LinearOrderedField α] (env : Collaborators α)
    (painter : QPainter α) (geom : NodeGeometry α) (state : NodeState)
    (model : NodeDataModel α) (scene : FlowScene κ) : QPainter α :=
  drawConnectionPointsLoop env geom state model scene [PortType.Out, PortType.In] painter

/-- Body of the inner loop of drawFilledConnectionPoints. -/
def drawFilledConnectionPoint [LinearOrderedField α] (env : Collaborators α)
    (geom : NodeGeometry α) (state : NodeState) (model : NodeDataModel α)
    (portType : PortType) (painter : QPainter α) (i : Nat) : QPainter α :=
  let diameter := model.nodeStyle.ConnectionPointDiameter
  let p := env.portScenePosition geom (i : Int) portType
  if !((state.getEntries portType).getD i []).isEmpty then
    let dataType := model.dataType portType (i : Int)
    let painter :=
      if env.connectionStyle.useDataDefinedColors then
        let c := env.connectionStyle.normalColor dataType.id
        (painter.setPenColor c).setBrush c
      else
        (painter.setPenColor model.nodeStyle.FilledConnectionPointColor).setBrush
          model.nodeStyle.FilledConnectionPointColor
    painter.drawEllipse p (diameter * 0.4) (diameter * 0.4)
  else
    painter

/-- The function NodePainter::drawFilledConnectionPoints. -/
def drawFilledConnectionPoints [LinearOrderedField α] (env : Collaborators α)
    (painter : QPainter α) (geom : NodeGeometry α) (state : NodeState)
    (model : NodeDataModel α) : QPainter α :=
  [PortType.Out, PortType.In].foldl
    (fun painter portType =>
      let n := (state.getEntries portType).length
      (List.range n).foldl (drawFilledConnectionPoint env geom state model portType) painter)
    painter

/-- The function NodePainter::drawResizeRect. -/
def drawResizeRect (env : Collaborators α) (painter : QPainter α)
    (geom : NodeGeometry α) (model : NodeDataModel α) : QPainter α :=
  if model.resizable then
    (painter.setBrush Qt.gray).drawEllipseIn (env.resizeRect geom)
  else
    painter

/-- The function NodePainter::drawValidationRect. -/
def drawValidationRect [LinearOrderedField α] (env : Collaborators α)
    (painter : QPainter α) (geom : NodeGeometry α) (model : NodeDataModel α)
    (graphicsObject : NodeGraphicsObject) : QPainter α :=
  let modelValidationState := model.validationState
  if modelValidationState ≠ NodeValidationState.Valid then
    let nodeStyle := model.nodeStyle
    let color :=
      if graphicsObject.isSelected then nodeStyle.SelectedBoundaryColor
      else nodeStyle.NormalBoundaryColor
    let painter :=
      if geom.hovered then painter.setPen ⟨color, nodeStyle.HoveredPenWidth⟩
      else painter.setPen ⟨color, nodeStyle.PenWidth⟩
    let painter :=
      if modelValidationState = NodeValidationState.Error then
        painter.setBrush nodeStyle.ErrorColor
      else
        painter.setBrush nodeStyle.WarningColor
    let radius : α := 3.0
    let boundary : QRectF α :=
      ⟨0, geom.height - env.validationHeight geom, geom.width, env.validationHeight geom⟩
    let painter := painter.drawRoundedRect boundary radius radius
    let painter := painter.setBrush Qt.gray
    let errorMsg := model.validationMessage
    let rect := env.boundingRect errorMsg
    let position : α × α :=
      ((geom.width - rect.width) / 2.0,
        geom.height - env.validationHeight geom / 2.0 + rect.height / 2.0)
    let painter := painter.setPenColor nodeStyle.FontColor
    painter.drawText position errorMsg
  else
    painter

/-- The function NodePainter::paint: the painter after all drawing steps and
the node with its geometry as paint leaves it. -/
def paint [LinearOrderedField α] (env : Collaborators α) (painter : QPainter α)
    (node : Node α) (scene : FlowScene κ) : QPainter α × Node α :=
  let geom := forceSquare node.nodeGeometry
  let state := node.nodeState
  let graphicsObject := node.nodeGraphicsObject
  let geom := env.recalculateSize geom
  let model := node.nodeDataModel
  let painter := env.drawNodeRect painter geom model graphicsObject
  let painter := drawConnectionPoints env painter geom state model scene
  let painter := drawFilledConnectionPoints env painter geom state model
  let painter := env.drawModelName painter geom state model
  let painter := env.drawEntryLabels painter geom state model
  let painter := drawResizeRect env painter geom model
  let painter := drawValidationRect env painter geom model graphicsObject
  let painter :=
    match model.painterDelegate with
    | some painterDelegate => painterDelegate.paint painter geom
    | none => painter
  (painter, { node with nodeGeometry := geom })

/-- The function NodePainter::resizeNodeByFactor; the repaint request at its
end draws nothing and changes no size. -/
def resizeNodeByFactor [Mul α] (node : Node α) (factor : α) : Node α :=
  let geom := node.nodeGeometry
  let currentSize := geom.width
  let newSize := currentSize * factor
  let geom := (geom.setWidth newSize).setHeight newSize
  { node with nodeGeometry := geom }

end NodePainter

/-! ## Concrete inputs on which the model is evaluated -/

namespace Sample

/-- A node style with pairwise different colours and connection point
diameter 8. -/
def style : NodeStyle ℚ :=
  { NormalBoundaryColor := ⟨1⟩, SelectedBoundaryColor := ⟨2⟩, PenWidth := 1,
    HoveredPenWidth := 3 / 2, ConnectionPointColor := ⟨3⟩,
    FilledConnectionPointColor := ⟨4⟩, WarningColor := ⟨5⟩, ErrorColor := ⟨6⟩,
    FontColor := ⟨7⟩, FontColorFaded := ⟨8⟩, ConnectionPointDiameter := 8 }

/-- The data type every sample port carries. -/
def number : NodeDataType := ⟨"number", "Number"⟩

/-- A second data type. -/
def text : NodeDataType := ⟨"text", "Text"⟩

/-- Collaborators: In ports sit on the left edge and Out ports on the right
edge, 10 apart vertically; the other drawing steps draw nothing; the square
root is exact at 0, the only distance the samples use. -/
def env : Collaborators ℚ :=
  { sqrt := fun x => if x = 0 then 0 else x,
    connectionStyle := ⟨false, fun _ => ⟨9⟩⟩,
    portScenePosition := fun geom i portType =>
      (if portType = PortType.In then 0 else geom.width, 10 * (i : ℚ)),
    validationHeight := fun _ => 20,
    resizeRect := fun geom => ⟨geom.width - 7, geom.height - 7, 7, 7⟩,
    recalculateSize := fun geom => geom,
    boundingRect := fun s => ⟨0, 0, 6 * (s.length : ℚ), 12⟩,
    drawNodeRect := fun painter _ _ _ => painter,
    drawModelName := fun painter _ _ _ => painter,
    drawEntryLabels := fun painter _ _ _ => painter }

/-- A fresh painter: black pen of width 1, black brush, nothing drawn. -/
def painter : QPainter ℚ := ⟨⟨⟨0⟩, 1⟩, ⟨0⟩, []⟩

/-- A scene whose registry converts number to text and nothing else. -/
def scene : FlowScene Unit :=
  ⟨⟨fun src dst => if src.id = "number" ∧ dst.id = "text" then some () else none⟩⟩

/-- A 100 by 100 geometry with the drag position on In port 0. -/
def geometry : NodeGeometry ℚ := ⟨100, 100, false, (0, 0)⟩

/-- A model whose In ports have policy Many: it overrides
portInConnectionPolicy and nothing else. -/
def manyInModel : NodeDataModel ℚ :=
  { nPorts := fun _ => 1, dataType := fun _ _ => number, nodeStyle := style,
    portInConnectionPolicy := fun _ => ConnectionPolicy.Many }

/-- A state with one In port and one Out port, each holding one connection,
reacting to a dragged connection of type number that looks for an In port. -/
def occupiedState : NodeState :=
  { inConnections := [[7]], outConnections := [[9]], isReacting := true,
    reactingPortType := PortType.In, reactingDataType := number }

/-- The same ports with the In port free. -/
def freeState : NodeState :=
  { inConnections := [[]], outConnections := [[9]], isReacting := true,
    reactingPortType := PortType.In, reactingDataType := number }

/-- An inlet model: node type NT_EXT_INLET with one In and one Out port. -/
def inletModel : NodeDataModel ℚ :=
  { nPorts := fun _ => 1, dataType := fun _ _ => number, nodeStyle := style,
    nodeType := NT_EXT_INLET }

/-- The state of the inlet node: its In port holds connection 7, its Out port
none, and no connection is being dragged. -/
def inletState : NodeState :=
  { inConnections := [[7]], outConnections := [[]], isReacting := false,
    reactingPortType := PortType.None, reactingDataType := number }

/-- The inlet node. -/
def inletNode : Node ℚ := ⟨geometry, inletState, inletModel, ⟨false⟩⟩

/-- A model in Error state with a message. -/
def errorModel : NodeDataModel ℚ :=
  { nPorts := fun _ => 1, dataType := fun _ _ => number, nodeStyle := style,
    validationState := NodeValidationState.Error, validationMessage := "bad" }

end Sample

/-! ## Theorems -/

section Theorems

open NodePainter

variable {α κ : Type}

/-- The function std::max agrees with the maximum of the order. -/
theorem NodePainter.stdMax_eq_max [LinearOrder α] (a b : α) : stdMax a b = max a b := by
  unfold stdMax
  rcases lt_or_le a b with h | h
  · rw [if_pos h, max_eq_right h.le]
  · rw [if_neg (not_lt.mpr h), max_eq_left h]

/-- C1: a model that leaves the two policy methods as the base class defines
them reports Many for every output port index and One for every input port
index, whatever else it overrides, so the answer is the same at any two
indices. -/
theorem default_connection_policies (nPorts : PortType → Nat)
    (dataType : PortType → PortIndex → NodeDataType) (nodeStyle : NodeStyle α)
    (nodeType : Int) (resizable : Bool) (validationState : NodeValidationState)
    (validationMessage : String) (painterDelegate : Option (NodePainterDelegate α))
    (index other : PortIndex) :
    let model : NodeDataModel α :=
      { nPorts := nPorts, dataType := dataType, nodeStyle := nodeStyle,
        nodeType := nodeType, resizable := resizable,
        validationState := validationState, validationMessage := validationMessage,
        painterDelegate := painterDelegate }
    model.portOutConnectionPolicy index = ConnectionPolicy.Many ∧
    model.portInConnectionPolicy index = ConnectionPolicy.One ∧
    model.portOutConnectionPolicy index = model.portOutConnectionPolicy other ∧
    model.portInConnectionPolicy index = model.portInConnectionPolicy other ∧
    NodeDataModelBase.portOutConnectionPolicy index = ConnectionPolicy.Many ∧
    NodeDataModelBase.portInConnectionPolicy index = ConnectionPolicy.One := by
  intro model
  exact ⟨rfl, rfl, rfl, rfl, rfl, rfl⟩

/-- C7: the square-forcing step of paint sets width and height both to the
maximum of the old width and height, so neither shrinks; it touches nothing
else; a geometry that is already square is returned as it is; and the step is
idempotent. -/
theorem forceSquare_spec [LinearOrder α] (geom : NodeGeometry α) :
    (forceSquare geom).width = max geom.width geom.height ∧
    (forceSquare geom).height = max geom.width geom.height ∧
    geom.width ≤ (forceSquare geom).width ∧
    geom.height ≤ (forceSquare geom).height ∧
    (forceSquare geom).hovered = geom.hovered ∧
    (forceSquare geom).draggingPos = geom.draggingPos ∧
    (geom.width = geom.height → forceSquare geom = geom) ∧
    forceSquare (forceSquare geom) = forceSquare geom := by
  by_cases h : geom.width = geom.height
  · have hfix : forceSquare geom = geom := by
      unfold forceSquare
      rw [if_neg (not_not.mpr h)]
    rw [hfix]
    refine ⟨?_, ?_, ?_, ?_, rfl, rfl, fun _ => rfl, hfix⟩
    · rw [h, max_self]
    · rw [h, max_self]
    · exact le_rfl
    · exact le_rfl
  · have hstep : forceSquare geom =
        (geom.setWidth (max geom.width geom.height)).setHeight
          (max geom.width geom.height) := by
      unfold forceSquare
      rw [if_pos h, stdMax_eq_max]
    have hidem : forceSquare (forceSquare geom) = forceSquare geom := by
      rw [hstep]
      unfold forceSquare
      rw [if_neg]
      simp [NodeGeometry.setWidth, NodeGeometry.setHeight]
    refine ⟨?_, ?_, ?_, ?_, ?_, ?_, fun h' => absurd h' h, hidem⟩
    · rw [hstep]; rfl
    · rw [hstep]; rfl
    · rw [hstep]; exact le_max_left _ _
    · rw [hstep]; exact le_max_right _ _
    · rw [hstep]; rfl
    · rw [hstep]; rfl

/-- Witness for C7: a geometry 3 wide and 5 high becomes 5 by 5, and a 4 by 4
geometry is left alone. -/
theorem forceSquare_spec_witness :
    (forceSquare (⟨3, 5, false, (0, 0)⟩ : NodeGeometry Nat)).width = 5 ∧
    forceSquare (⟨4, 4, false, (0, 0)⟩ : NodeGeometry Nat) = ⟨4, 4, false, (0, 0)⟩ :=
  ⟨(forceSquare_spec (⟨3, 5, false, (0, 0)⟩ : NodeGeometry Nat)).1,
    (forceSquare_spec (⟨4, 4, false, (0, 0)⟩ : NodeGeometry Nat)).2.2.2.2.2.2.1 rfl⟩

/-- C8: resizeNodeByFactor sets width and height both to the old width times
the factor and touches nothing else; the old height has no influence on the
new geometry; the node is square afterwards; for a square node the height too
is scaled by the factor, and factor 1 returns the node as it was. -/
theorem resizeNodeByFactor_spec [MulOneClass α] (node : Node α) (factor : α) :
    (resizeNodeByFactor node factor).nodeGeometry.width =
      node.nodeGeometry.width * factor ∧
    (resizeNodeByFactor node factor).nodeGeometry.height =
      node.nodeGeometry.width * factor ∧
    (resizeNodeByFactor node factor).nodeGeometry.width =
      (resizeNodeByFactor node factor).nodeGeometry.height ∧
    (∀ h : α,
      resizeNodeByFactor
          { node with nodeGeometry := node.nodeGeometry.setHeight h } factor =
        resizeNodeByFactor node factor) ∧
    (resizeNodeByFactor node factor).nodeGeometry.hovered = node.nodeGeometry.hovered ∧
    (resizeNodeByFactor node factor).nodeGeometry.draggingPos =
      node.nodeGeometry.draggingPos ∧
    (resizeNodeByFactor node factor).nodeState = node.nodeState ∧
    (resizeNodeByFactor node factor).nodeDataModel = node.nodeDataModel ∧
    (node.nodeGeometry.width = node.nodeGeometry.height →
      (resizeNodeByFactor node factor).nodeGeometry.height =
          node.nodeGeometry.height * factor ∧
        resizeNodeByFactor node 1 = node) := by
  refine ⟨rfl, rfl, rfl, fun h => rfl, rfl, rfl, rfl, rfl, fun hsq => ⟨?_, ?_⟩⟩
  · show node.nodeGeometry.width * factor = node.nodeGeometry.height * factor
    rw [hsq]
  · obtain ⟨⟨w, h, hov, pos⟩, st, model, go⟩ := node
    simp only at hsq
    subst hsq
    simp [resizeNodeByFactor, NodeGeometry.setWidth, NodeGeometry.setHeight]

/-- Witness for C8: the 100 by 100 sample node doubled is 200 high, and
factor 1 returns it unchanged. -/
theorem resizeNodeByFactor_spec_witness :
    (resizeNodeByFactor Sample.inletNode 2).nodeGeometry.height =
        Sample.inletNode.nodeGeometry.height * 2 ∧
      resizeNodeByFactor Sample.inletNode 1 = Sample.inletNode :=
  (resizeNodeByFactor_spec Sample.inletNode 2).2.2.2.2.2.2.2.2 rfl

/-- The local canConnect is true exactly for a port with an empty occupancy
set and for an Out port whose policy is Many. -/
theorem NodePainter.canConnect_iff (state : NodeState) (model : NodeDataModel α)
    (portType : PortType) (i : Nat) :
    canConnect state model portType i = true ↔
      (state.getEntries portType).getD i [] = [] ∨
        (portType = PortType.Out ∧
          model.portOutConnectionPolicy (i : Int) = ConnectionPolicy.Many) := by
  simp [canConnect, List.isEmpty_iff]

/-- Unfolding of the scale factor when the three guards of line 162 hold. -/
theorem NodePainter.connectionPointScale_reacting [LinearOrderedField α]
    (env : Collaborators α) (geom : NodeGeometry α) (state : NodeState)
    (model : NodeDataModel α) (scene : FlowScene κ) (portType : PortType) (i : Nat)
    (hreact : state.isReacting = true)
    (hcan : canConnect state model portType i = true)
    (hport : portType = state.reactingPortType) :
    connectionPointScale env geom state model scene portType i =
      if typeCompatible scene state portType (model.dataType portType (i : Int)) = true then
        (if dragDistance env geom portType i < 40 then
          2 - dragDistance env geom portType i / 40 else 1)
      else
        (if dragDistance env geom portType i < 80 then
          dragDistance env geom portType i / 80 else 1) := by
  unfold connectionPointScale
  have hguard : (state.isReacting && canConnect state model portType i &&
      portType == state.reactingPortType) = true := by
    rw [hreact, hcan, ← hport]
    simp
  simp only [hguard, if_true]
  norm_num

/-- Unfolding of the scale factor when the port cannot accept a connection. -/
theorem NodePainter.connectionPointScale_blocked [LinearOrderedField α]
    (env : Collaborators α) (geom : NodeGeometry α) (state : NodeState)
    (model : NodeDataModel α) (scene : FlowScene κ) (portType : PortType) (i : Nat)
    (hcan : canConnect state model portType i = false) :
    connectionPointScale env geom state model scene portType i = 1 := by
  unfold connectionPointScale
  rw [hcan]
  norm_num

/-- C2: for a reacting, connectable port of the reacting port type the
enlarging branch is taken exactly when the dragged type and the port type have
the same id or the registry has a converter for the ordered pair: (dragged
type, port type) at an In port, (port type, dragged type) at an Out port. The
scale factor is then that of the enlarging branch (threshold 40), otherwise
that of the shrinking branch (threshold 80). Equal ids are compatible for
every registry and whatever the names of the two types. -/
theorem typeCompatible_spec [LinearOrderedField α] (env : Collaborators α)
    (geom : NodeGeometry α) (state : NodeState) (model : NodeDataModel α)
    (scene : FlowScene κ) (portType : PortType) (i : Nat)
    (hreact : state.isReacting = true)
    (hcan : canConnect state model portType i = true)
    (hport : portType = state.reactingPortType) :
    (portType = PortType.In →
      (typeCompatible scene state portType (model.dataType portType (i : Int)) = true ↔
        state.reactingDataType.id = (model.dataType portType (i : Int)).id ∨
          scene.registry.getTypeConverter state.reactingDataType
            (model.dataType portType (i : Int)) ≠ none)) ∧
    (portType = PortType.Out →
      (typeCompatible scene state portType (model.dataType portType (i : Int)) = true ↔
        state.reactingDataType.id = (model.dataType portType (i : Int)).id ∨
          scene.registry.getTypeConverter (model.dataType portType (i : Int))
            state.reactingDataType ≠ none)) ∧
    (typeCompatible scene state portType (model.dataType portType (i : Int)) = true →
      connectionPointScale env geom state model scene portType i =
        if dragDistance env geom portType i < 40 then
          2 - dragDistance env geom portType i / 40 else 1) ∧
    (typeCompatible scene state portType (model.dataType portType (i : Int)) = false →
      connectionPointScale env geom state model scene portType i =
        if dragDistance env geom portType i < 80 then
          dragDistance env geom portType i / 80 else 1) ∧
    (state.reactingDataType.id = (model.dataType portType (i : Int)).id →
      ∀ (other : FlowScene κ) (draggedName portName : String),
        typeCompatible other
          { state with reactingDataType := ⟨state.reactingDataType.id, draggedName⟩ }
          portType ⟨(model.dataType portType (i : Int)).id, portName⟩ = true) := by
  refine ⟨?_, ?_, ?_, ?_, ?_⟩
  · intro hin
    simp [typeCompatible, typeConvertable, hin, Option.isSome_iff_ne_none]
  · intro hout
    simp [typeCompatible, typeConvertable, hout, Option.isSome_iff_ne_none]
  · intro hc
    rw [connectionPointScale_reacting env geom state model scene portType i hreact hcan hport,
      if_pos hc]
  · intro hc
    rw [connectionPointScale_reacting env geom state model scene portType i hreact hcan hport,
      if_neg (by rw [hc]; exact Bool.false_ne_true)]
  · intro hid other draggedName portName
    simp [typeCompatible, hid]

/-- Witness for C2: the free In port 0 of the sample model, dragged onto with
a connection of the same type id, takes the enlarging branch. -/
theorem typeCompatible_spec_witness :
    connectionPointScale Sample.env Sample.geometry Sample.freeState Sample.manyInModel
        Sample.scene PortType.In 0 =
      if dragDistance Sample.env Sample.geometry PortType.In 0 < 40 then
        2 - dragDistance Sample.env Sample.geometry PortType.In 0 / 40 else 1 :=
  (typeCompatible_spec Sample.env Sample.geometry Sample.freeState Sample.manyInModel
    Sample.scene PortType.In 0 rfl (by decide) rfl).2.2.1 (by decide)

/-- C3: an In port with policy One and a non-empty occupancy set is never
connectable for the painter: canConnect is false and the scale factor is 1,
so the ellipse drawn for it has both radii equal to half the diameter times 1,
for every state, geometry, scene and data type. The proof does not use the
policy: the painter does not read portInConnectionPolicy. -/
theorem occupied_in_port_scale_one [LinearOrderedField α] (env : Collaborators α)
    (geom : NodeGeometry α) (state : NodeState) (model : NodeDataModel α)
    (scene : FlowScene κ) (i : Nat)
    (hpolicy : model.portInConnectionPolicy (i : Int) = ConnectionPolicy.One)
    (hocc : (state.getEntries PortType.In).getD i [] ≠ []) :
    canConnect state model PortType.In i = false ∧
    connectionPointScale env geom state model scene PortType.In i = 1 ∧
    ∀ painter : QPainter α,
      (drawConnectionPoint env geom state model scene PortType.In painter i).drawn =
        painter.drawn ++
          [⟨Shape.ellipse (env.portScenePosition geom (i : Int) PortType.In)
              (model.nodeStyle.ConnectionPointDiameter * 0.5 * 1)
              (model.nodeStyle.ConnectionPointDiameter * 0.5 * 1),
            painter.pen,
            if env.connectionStyle.useDataDefinedColors = true then
              env.connectionStyle.normalColor (model.dataType PortType.In (i : Int)).id
            else model.nodeStyle.ConnectionPointColor⟩] := by
  have _hused := hpolicy
  have hcan : canConnect state model PortType.In i = false := by
    rw [Bool.eq_false_iff]
    intro h
    rcases (canConnect_iff state model PortType.In i).mp h with h | h
    · exact hocc h
    · exact absurd h.1 (by decide)
  have hscale := connectionPointScale_blocked env geom state model scene PortType.In i hcan
  refine ⟨hcan, hscale, fun painter => ?_⟩
  unfold drawConnectionPoint
  simp only [hscale]
  by_cases hc : env.connectionStyle.useDataDefinedColors = true
  · simp [hc, QPainter.drawEllipse, QPainter.draw, QPainter.setBrush]
  · simp [hc, QPainter.drawEllipse, QPainter.draw, QPainter.setBrush]

/-- Witness for C3: In port 0 of a model with the default policies, holding
connection 7, is not connectable. -/
theorem occupied_in_port_scale_one_witness :
    canConnect Sample.occupiedState Sample.inletModel PortType.In 0 = false :=
  (occupied_in_port_scale_one Sample.env Sample.geometry Sample.occupiedState
    Sample.inletModel Sample.scene 0 rfl (by decide)).1

/-- What drawValidationRect adds to the painter when the state is not Valid:
the box with the brush chosen by the state, then the message in the font
colour with the gray brush in force. -/
theorem NodePainter.drawValidationRect_drawn [LinearOrderedField α]
    (env : Collaborators α) (painter : QPainter α) (geom : NodeGeometry α)
    (model : NodeDataModel α) (graphicsObject : NodeGraphicsObject)
    (h : model.validationState ≠ NodeValidationState.Valid) :
    (drawValidationRect env painter geom model graphicsObject).drawn =
      painter.drawn ++
        [⟨Shape.roundedRect
              ⟨0, geom.height - env.validationHeight geom, geom.width,
                env.validationHeight geom⟩ 3 3,
            ⟨if graphicsObject.isSelected = true then model.nodeStyle.SelectedBoundaryColor
              else model.nodeStyle.NormalBoundaryColor,
              if geom.hovered = true then model.nodeStyle.HoveredPenWidth
              else model.nodeStyle.PenWidth⟩,
            if model.validationState = NodeValidationState.Error then
              model.nodeStyle.ErrorColor
            else model.nodeStyle.WarningColor⟩,
          ⟨Shape.text
              ((geom.width - (env.boundingRect model.validationMessage).width) / 2,
                geom.height - env.validationHeight geom / 2 +
                  (env.boundingRect model.validationMessage).height / 2)
              model.validationMessage,
            ⟨model.nodeStyle.FontColor, 1⟩, Qt.gray⟩] := by
  unfold drawValidationRect
  simp only [h, ne_eq, not_false_eq_true, if_true]
  by_cases he : model.validationState = NodeValidationState.Error <;>
    by_cases hh : geom.hovered = true <;>
    simp [he, hh, QPainter.drawText, QPainter.drawRoundedRect, QPainter.draw,
      QPainter.setBrush, QPainter.setPen, QPainter.setPenColor] <;>
    norm_num

/-- C5: drawValidationRect leaves the painter as it is when the state is
Valid (so also for a model that keeps the base-class validationState), and
otherwise adds exactly the box and the text of validationMessage: what has
been drawn is unchanged if and only if the state is Valid. The box is drawn
with ErrorColor in Error state and with WarningColor in Warning state; with
two different colours the brush of the box is ErrorColor only in Error state
and WarningColor only in Warning state. -/
theorem drawValidationRect_spec [LinearOrderedField α] (env : Collaborators α)
    (painter : QPainter α) (geom : NodeGeometry α) (model : NodeDataModel α)
    (graphicsObject : NodeGraphicsObject) :
    (model.validationState = NodeValidationState.Valid →
      drawValidationRect env painter geom model graphicsObject = painter) ∧
    (model.validationState = NodeDataModelBase.validationState →
      drawValidationRect env painter geom model graphicsObject = painter) ∧
    ((drawValidationRect env painter geom model graphicsObject).drawn = painter.drawn ↔
      model.validationState = NodeValidationState.Valid) ∧
    (model.validationState = NodeValidationState.Error →
      ∃ (rect : QRectF α) (pen : QPen α) (position : α × α),
        (drawValidationRect env painter geom model graphicsObject).drawn =
          painter.drawn ++
            [⟨Shape.roundedRect rect 3 3, pen, model.nodeStyle.ErrorColor⟩,
              ⟨Shape.text position model.validationMessage,
                ⟨model.nodeStyle.FontColor, 1⟩, Qt.gray⟩]) ∧
    (model.validationState = NodeValidationState.Warning →
      ∃ (rect : QRectF α) (pen : QPen α) (position : α × α),
        (drawValidationRect env painter geom model graphicsObject).drawn =
          painter.drawn ++
            [⟨Shape.roundedRect rect 3 3, pen, model.nodeStyle.WarningColor⟩,
              ⟨Shape.text position model.validationMessage,
                ⟨model.nodeStyle.FontColor, 1⟩, Qt.gray⟩]) ∧
    (∀ (box : Drawn α) (rest : List (Drawn α)),
      (drawValidationRect env painter geom model graphicsObject).drawn =
          painter.drawn ++ box :: rest →
        model.nodeStyle.ErrorColor ≠ model.nodeStyle.WarningColor →
          (box.brush = model.nodeStyle.ErrorColor ↔
              model.validationState = NodeValidationState.Error) ∧
            (box.brush = model.nodeStyle.WarningColor ↔
              model.validationState = NodeValidationState.Warning)) := by
  have hvalid : model.validationState = NodeValidationState.Valid →
      drawValidationRect env painter geom model graphicsObject = painter := by
    intro h
    unfold drawValidationRect
    simp [h]
  refine ⟨hvalid, hvalid, ?_, ?_, ?_, ?_⟩
  · constructor
    · intro h
      by_contra hne
      have hd := drawValidationRect_drawn env painter geom model graphicsObject hne
      rw [h] at hd
      have hlen := congrArg List.length hd
      simp at hlen
    · intro h
      rw [hvalid h]
  · intro h
    have hne : model.validationState ≠ NodeValidationState.Valid := by
      rw [h]; decide
    have hd := drawValidationRect_drawn env painter geom model graphicsObject hne
    rw [if_pos h] at hd
    exact ⟨_, _, _, hd⟩
  · intro h
    have hne : model.validationState ≠ NodeValidationState.Valid := by
      rw [h]; decide
    have hd := drawValidationRect_drawn env painter geom model graphicsObject hne
    have hnerr : ¬ model.validationState = NodeValidationState.Error := by
      rw [h]; decide
    rw [if_neg hnerr] at hd
    exact ⟨_, _, _, hd⟩
  · intro box rest hdrawn hcol
    by_cases hv : model.validationState = NodeValidationState.Valid
    · rw [hvalid hv] at hdrawn
      have hlen := congrArg List.length hdrawn
      simp at hlen
    · have hd := drawValidationRect_drawn env painter geom model graphicsObject hv
      rw [hdrawn] at hd
      have hbox := (List.cons.inj (List.append_cancel_left hd)).1
      have hbrush : box.brush =
          if model.validationState = NodeValidationState.Error then
            model.nodeStyle.ErrorColor
          else model.nodeStyle.WarningColor := by
        rw [hbox]
      cases hs : model.validationState with
      | Valid => exact absurd hs hv
      | Warning =>
        rw [hs] at hbrush
        simp only [reduceCtorEq, if_false] at hbrush
        rw [hbrush]
        simp [hcol.symm]
      | Error =>
        rw [hs] at hbrush
        simp only [if_true] at hbrush
        rw [hbrush]
        simp [hcol]

/-- Witness for C5: the sample model in Error state gets its box in the error
colour and its message. -/
theorem drawValidationRect_spec_witness :
    ∃ (rect : QRectF ℚ) (pen : QPen ℚ) (position : ℚ × ℚ),
      (drawValidationRect Sample.env Sample.painter Sample.geometry Sample.errorModel
          ⟨false⟩).drawn =
        Sample.painter.drawn ++
          [⟨Shape.roundedRect rect 3 3, pen, Sample.errorModel.nodeStyle.ErrorColor⟩,
            ⟨Shape.text position Sample.errorModel.validationMessage,
              ⟨Sample.errorModel.nodeStyle.FontColor, 1⟩, Qt.gray⟩] :=
  (drawValidationRect_spec Sample.env Sample.painter Sample.geometry Sample.errorModel
    ⟨false⟩).2.2.2.1 rfl

/-- The part of the connectability rule the painter does implement: an Out
port with policy Many is connectable whatever it holds, and a port with an
empty occupancy set is connectable under either policy. -/
theorem NodePainter.canConnect_out_many_or_empty (state : NodeState)
    (model : NodeDataModel α) (portType : PortType) (i : Nat) :
    (portType = PortType.Out →
      model.portOutConnectionPolicy (i : Int) = ConnectionPolicy.Many →
        canConnect state model portType i = true) ∧
    ((state.getEntries portType).getD i [] = [] →
      canConnect state model portType i = true) :=
  ⟨fun hout hmany => (canConnect_iff state model portType i).mpr (Or.inr ⟨hout, hmany⟩),
    fun hempty => (canConnect_iff state model portType i).mpr (Or.inl hempty)⟩

/-- C4, the code at the failing input: In port 0 of a model whose
portInConnectionPolicy is Many holds connection 7. The painter computes
canConnect = false and draws the point with scale 1 although a compatible
connection is dragged right onto it; the same port when free gets scale 2,
and the occupied Out port 0, whose policy is Many, is connectable. -/
theorem many_in_port_not_connectable :
    Sample.manyInModel.portInConnectionPolicy 0 = ConnectionPolicy.Many ∧
    canConnect Sample.occupiedState Sample.manyInModel PortType.In 0 = false ∧
    connectionPointScale Sample.env Sample.geometry Sample.occupiedState
        Sample.manyInModel Sample.scene PortType.In 0 = 1 ∧
    connectionPointScale Sample.env Sample.geometry Sample.freeState
        Sample.manyInModel Sample.scene PortType.In 0 = 2 ∧
    Sample.manyInModel.portOutConnectionPolicy 0 = ConnectionPolicy.Many ∧
    canConnect Sample.occupiedState Sample.manyInModel PortType.Out 0 = true := by
  refine ⟨rfl, by decide, ?_, ?_, rfl, by decide⟩
  · exact connectionPointScale_blocked _ _ _ _ _ _ _ (by decide)
  · rw [connectionPointScale_reacting Sample.env Sample.geometry Sample.freeState
      Sample.manyInModel Sample.scene PortType.In 0 rfl (by decide) rfl]
    have hdist : dragDistance Sample.env Sample.geometry PortType.In 0 = 0 := by
      simp [dragDistance, dotProduct, Sample.env, Sample.geometry]
    rw [hdist, if_pos (by decide)]
    norm_num

/-- For a node of type 0 drawConnectionPoints runs its inner loop over the Out
entries only. -/
theorem NodePainter.drawConnectionPoints_inlet [LinearOrderedField α]
    (env : Collaborators α) (painter : QPainter α) (geom : NodeGeometry α)
    (state : NodeState) (model : NodeDataModel α) (scene : FlowScene κ)
    (h : model.nodeType = 0) :
    drawConnectionPoints env painter geom state model scene =
      (List.range (state.getEntries PortType.Out).length).foldl
        (drawConnectionPoint env geom state model scene PortType.Out) painter := by
  simp [drawConnectionPoints, drawConnectionPointsLoop, h]

/-- C6, the code at the failing input: paint on a node of type NT_EXT_INLET
whose In port 0 holds connection 7 and whose Out port 0 is free. The painter
ends with two primitives: the connection point of Out port 0 at (100, 0),
drawn by drawConnectionPoints, and a filled ellipse at (0, 0), the position
of In port 0, drawn by drawFilledConnectionPoints. -/
theorem inlet_paint_draws_in_port :
    Sample.inletNode.nodeDataModel.nodeType = NT_EXT_INLET ∧
    Sample.env.portScenePosition Sample.inletNode.nodeGeometry 0 PortType.In = (0, 0) ∧
    (drawConnectionPoints Sample.env Sample.painter Sample.geometry Sample.inletState
        Sample.inletModel Sample.scene).drawn =
      [⟨Shape.ellipse (100, 0) 4 4, ⟨⟨0⟩, 1⟩, ⟨3⟩⟩] ∧
    (drawFilledConnectionPoints Sample.env Sample.painter Sample.geometry
        Sample.inletState Sample.inletModel).drawn =
      [⟨Shape.ellipse (0, 0) (16 / 5) (16 / 5), ⟨⟨4⟩, 1⟩, ⟨4⟩⟩] ∧
    (paint Sample.env Sample.painter Sample.inletNode Sample.scene).1.drawn =
      [⟨Shape.ellipse (100, 0) 4 4, ⟨⟨0⟩, 1⟩, ⟨3⟩⟩,
        ⟨Shape.ellipse (0, 0) (16 / 5) (16 / 5), ⟨⟨4⟩, 1⟩, ⟨4⟩⟩] := by
  refine ⟨rfl, ?_, ?_, ?_, ?_⟩
  · simp [Sample.env]
  · simp [drawConnectionPoints, drawConnectionPointsLoop, drawConnectionPoint,
      connectionPointScale, canConnect, NodeState.getEntries, Sample.inletModel,
      Sample.inletState, Sample.env, Sample.painter, Sample.geometry, Sample.style,
      Sample.number, NT_EXT_INLET, QPainter.setBrush, QPainter.drawEllipse,
      QPainter.draw, List.range, List.range.loop]
    norm_num
  · simp [drawFilledConnectionPoints, drawFilledConnectionPoint, NodeState.getEntries,
      Sample.inletModel, Sample.inletState, Sample.env, Sample.painter, Sample.geometry,
      Sample.style, Sample.number, QPainter.setBrush, QPainter.setPenColor,
      QPainter.drawEllipse, QPainter.draw, List.range, List.range.loop]
    norm_num
  · simp [paint, drawConnectionPoints, drawConnectionPointsLoop,
      drawFilledConnectionPoints, drawConnectionPoint, drawFilledConnectionPoint,
      drawResizeRect, drawValidationRect, connectionPointScale, canConnect, forceSquare,
      NodeState.getEntries, Sample.inletNode, Sample.inletModel, Sample.inletState,
      Sample.env, Sample.painter, Sample.geometry, Sample.style, Sample.number,
      NT_EXT_INLET, NodeDataModelBase.resizable, NodeDataModelBase.validationState,
      QPainter.setBrush, QPainter.setPenColor, QPainter.drawEllipse, QPainter.draw,
      List.range, List.range.loop]
    norm_num

end Theorems
